import Mathlib

/-!
Shallow embedding of the device-emulator core
(`src/device_emulator/core/simple_device.py`,
`src/device_emulator/core/simple_emulator.py`,
`src/device_emulator/api/rest_server.py`,
`src/shared/models/{config,device_config,multi_device_config}.py`,
`src/qt_client/data_manager.py`).

Python floats are modelled as rationals (ℚ); Python `int(x)` truncation
toward zero is `pyInt`.  Randomness (`random.uniform`, `random.random`)
is modelled by passing the drawn numbers in explicitly; theorems that
need the draws to be in range carry that as a hypothesis.  Wall-clock
timestamps (`datetime.now()`) are rational numbers of seconds, passed in
explicitly.
-/

namespace Emu

/-- Python `int(x)` on a float: truncation toward zero. -/
def pyInt (q : ℚ) : ℤ :=
  if 0 ≤ q then ⌊q⌋ else ⌈q⌉

/-- Python `min(a, b)` on floats (keeps the first argument on ties).
Defined explicitly so that closed evaluations reduce in the kernel. -/
def pymin (a b : ℚ) : ℚ := if b < a then b else a

/-- Python `max(a, b)` on floats. -/
def pymax (a b : ℚ) : ℚ := if a < b then b else a

/-- Python `min(a, b)` on ints. -/
def pyminI (a b : ℤ) : ℤ := if b < a then b else a

/-- Python `max(a, b)` on ints. -/
def pymaxI (a b : ℤ) : ℤ := if a < b then b else a

lemma pymin_eq (a b : ℚ) : pymin a b = min a b := by
  unfold pymin
  rcases le_or_lt a b with h | h
  · rw [if_neg (not_lt.mpr h), min_eq_left h]
  · rw [if_pos h, min_eq_right h.le]

lemma pymax_eq (a b : ℚ) : pymax a b = max a b := by
  unfold pymax
  rcases le_or_lt b a with h | h
  · rw [if_neg (not_lt.mpr h), max_eq_left h]
  · rw [if_pos h, max_eq_right h.le]

lemma pyminI_eq (a b : ℤ) : pyminI a b = min a b := by
  unfold pyminI
  rcases le_or_lt a b with h | h
  · rw [if_neg (not_lt.mpr h), min_eq_left h]
  · rw [if_pos h, min_eq_right h.le]

lemma pymaxI_eq (a b : ℤ) : pymaxI a b = max a b := by
  unfold pymaxI
  rcases le_or_lt b a with h | h
  · rw [if_neg (not_lt.mpr h), max_eq_left h]
  · rw [if_pos h, max_eq_right h.le]

/-- A Python scalar value as it appears in configs and generator state
(`Union[int, float, str, bool]`). -/
inductive PyVal where
  | int (n : ℤ)
  | float (q : ℚ)
  | bool (b : Bool)
  | str (s : String)
deriving DecidableEq

/-- Numeric view of a Python value: Python `bool` is an `int` subtype
(`True == 1`, `False == 0`).  A `str` never enters the numeric generator
pipeline (it would raise `TypeError` in Python); the 0 here is never
reached by any theorem below. -/
def pyNum : PyVal → ℚ
  | .int n => (n : ℚ)
  | .float q => q
  | .bool b => if b then 1 else 0
  | .str _ => 0

/-- Python `a <= v` where `a` is numeric and `v` is any scalar: comparing
a number with a `str` raises `TypeError` (modelled as `none`). -/
def pyLeNum (a : ℚ) (v : PyVal) : Option Bool :=
  match v with
  | .str _ => none
  | w => if a ≤ pyNum w then some true else some false

/-- Python `v <= b` where `b` is numeric. -/
def pyNumLe (v : PyVal) (b : ℚ) : Option Bool :=
  match v with
  | .str _ => none
  | w => if pyNum w ≤ b then some true else some false

/-- Python chained comparison `a <= v <= b`: evaluates `a <= v` first
(raising `TypeError` when the types do not compare), and only evaluates
`v <= b` when the first comparison is `True`. -/
def pyChainLe (a : ℚ) (v : PyVal) (b : ℚ) : Option Bool :=
  match pyLeNum a v with
  | none => none
  | some false => some false
  | some true => pyNumLe v b

/-- `DataType` enum of `shared/models/config.py` / `device_config.py`. -/
inductive DataType where
  | integer
  | float
  | boolean
  | string
deriving DecidableEq

/-- `DataGenerationConfig` (`shared/models/config.py` and
`device_config.py`; the two files declare the identical model).
`min_value`, `max_value`, `change_step` are `Union[int, float]`,
modelled as ℚ; `custom_params` only feeds free-form string generation
and is not needed by any claim. -/
structure DataGenerationConfig where
  name : String
  data_type : DataType
  min_value : ℚ
  max_value : ℚ
  frequency : ℚ
  change_step : ℚ
  unit : String := ""
  initial_value : Option PyVal := none
  noise_level : ℚ := 0
  drift_rate : ℚ := 0
deriving DecidableEq

/-- The `values` dict (pydantic v1) / `info.data` (pydantic v2) passed to
a field validator: it holds only the fields that have ALREADY been
validated, in model declaration order — never the field currently being
validated. -/
structure PydanticValues where
  min_value : Option ℚ := none
  max_value : Option ℚ := none
deriving DecidableEq

/-- `DataGenerationConfig.validate_range` (`config.py` lines 47-54,
`device_config.py` lines 47-53): runs once for `min_value` and once for
`max_value`; the body only acts when BOTH keys are present in
`values`. -/
def validate_range (v : ℚ) (values : PydanticValues) : Except String ℚ :=
  match values.min_value, values.max_value with
  | some mn, some mx =>
      if mx < mn then
        Except.error "min_value must be less than or equal to max_value"
      else
        Except.ok v
  | _, _ => Except.ok v

/-- `DataGenerationConfig.validate_initial_value` (`config.py` lines
56-63, `device_config.py` lines 55-61): checks
`values[min_value] <= v <= values[max_value]` when an initial value is
given; a `TypeError` from the comparison (string vs number) also aborts
validation. -/
def validate_initial_value (v : Option PyVal) (values : PydanticValues) :
    Except String (Option PyVal) :=
  match v, values.min_value, values.max_value with
  | some w, some mn, some mx =>
      match pyChainLe mn w mx with
      | none => Except.error "TypeError: unsupported comparison"
      | some false =>
          Except.error "initial_value must be within min_value and max_value range"
      | some true => Except.ok (some w)
  | w, _, _ => Except.ok w

/-- Pydantic validation of one `DataGenerationConfig`: fields are
validated in declaration order (`name`, `data_type`, `min_value`,
`max_value`, `frequency`, `change_step`, `unit`, `initial_value`,
`noise_level`, ...); each custom validator sees in `values` exactly the
fields validated before its own.  `noise_level` carries the built-in
`ge=0.0, le=1.0` constraint. -/
def validateDataGenerationConfig (c : DataGenerationConfig) :
    Except String DataGenerationConfig :=
  match validate_range c.min_value { min_value := none, max_value := none } with
  | Except.error e => Except.error e
  | Except.ok _ =>
    match validate_range c.max_value { min_value := some c.min_value, max_value := none } with
    | Except.error e => Except.error e
    | Except.ok _ =>
      match validate_initial_value c.initial_value
          { min_value := some c.min_value, max_value := some c.max_value } with
      | Except.error e => Except.error e
      | Except.ok _ =>
        if c.noise_level < 0 ∨ 1 < c.noise_level then
          Except.error "noise_level must be in the range 0.0 to 1.0"
        else
          Except.ok c

/-- `DeviceType` enum (`multi_device_config.py` lines 12-17,
`config.py` lines 66-71). -/
inductive DeviceType where
  | sensor
  | actuator
  | controller
  | gateway
deriving DecidableEq

/-- The enum's `.value` string. -/
def DeviceType.value : DeviceType → String
  | .sensor => "sensor"
  | .actuator => "actuator"
  | .controller => "controller"
  | .gateway => "gateway"

/-- `DeviceDefinition` (`multi_device_config.py` lines 34-55).  The
free-form `communication`/`metadata` maps are passed through unchanged
and touched by no claim, so they are not modelled. -/
structure DeviceDefinition where
  device_id : String
  device_name : String
  device_type : DeviceType
  data_configs : List DataGenerationConfig
deriving DecidableEq

/-- `DeviceDefinition.validate_data_configs`. -/
def validate_data_configs (v : List DataGenerationConfig) :
    Except String (List DataGenerationConfig) :=
  if v.isEmpty then
    Except.error "At least one data configuration must be provided"
  else
    Except.ok v

/-- `MultiDeviceConfig` (`multi_device_config.py` lines 58-97; identical
validator in `config.py` lines 139-151). -/
structure MultiDeviceConfig where
  config_name : String
  devices : List DeviceDefinition
deriving DecidableEq

/-- `MultiDeviceConfig.validate_devices`: Python compares
`len(device_ids)` with `len(set(device_ids))`, i.e. the list length with
its number of distinct elements (`List.dedup`). -/
def validate_devices (v : List DeviceDefinition) :
    Except String (List DeviceDefinition) :=
  if v.isEmpty then
    Except.error "At least one device must be provided"
  else if (v.map (fun dd => dd.device_id)).length ≠ (v.map (fun dd => dd.device_id)).dedup.length then
    Except.error "Device IDs must be unique"
  else
    Except.ok v

/-- Pydantic validation of a whole fleet config: every field config,
every device's `data_configs` list, then the fleet's `devices` list.
This runs at load time, before `SimpleEmulator` constructs any
`SimpleDevice` (`SimpleEmulator.init` below is only ever applied to an
`Except.ok` output of this). -/
def loadMultiDeviceConfig (c : MultiDeviceConfig) :
    Except String MultiDeviceConfig := do
  let _ ← c.devices.mapM (fun dd => dd.data_configs.mapM validateDataGenerationConfig)
  let _ ← c.devices.mapM (fun dd => validate_data_configs dd.data_configs)
  let _ ← validate_devices c.devices
  Except.ok c

/-! ## Field generators (`simple_device.py`) -/

/-- Python truthiness of a scalar (`bool(v)` / `not v`). -/
def pyTruthy : PyVal → Bool
  | .int n => n ≠ 0
  | .float q => q ≠ 0
  | .bool b => b
  | .str s => s ≠ ""

/-- Python `str(v)` (only the `.str` case is ever reached by the string
generator on validated configs). -/
def pyStr : PyVal → String
  | .int n => toString n
  | .float q => toString q
  | .bool b => if b then "True" else "False"
  | .str s => s

/-- The random draws consumed by one generation call:
`change` is the result of `random.uniform(-max_change, max_change)`,
`r` the result of `random.random()` (in `[0,1)`),
`noise` the result of `random.uniform(-noise_range, noise_range)`,
`new_string` the replacement drawn in the string branch. -/
structure Draws where
  change : ℚ
  r : ℚ
  noise : ℚ
  new_string : String
deriving DecidableEq

/-- One entry of `SimpleDevice.generators`: the per-field mutable state
(`simple_device.py` lines 35-45). -/
structure FieldGenerator where
  config : DataGenerationConfig
  current_value : PyVal
  last_update : ℚ
  drift_offset : ℚ
deriving DecidableEq

/-- `SimpleDevice._get_initial_value` (lines 47-64): a fixed
`initial_value` is used verbatim; otherwise the value is drawn randomly
per kind — that draw is the `rand` argument. -/
def get_initial_value (config : DataGenerationConfig) (rand : PyVal) : PyVal :=
  match config.initial_value with
  | some v => v
  | none => rand

/-- The `max_change` bound computed by `_generate_next_value` for the
uniform step draw, from the generator's own `datetime.now()` reading. -/
def max_change (g : FieldGenerator) (now : ℚ) : ℚ :=
  g.config.change_step * (now - g.last_update)

/-- The `noise_range` bound computed by `_apply_noise` for the uniform
noise draw. -/
def noise_range (config : DataGenerationConfig) : ℚ :=
  (config.max_value - config.min_value) * config.noise_level

/-- `SimpleDevice._apply_noise` (lines 72-84); `noiseDraw` is the value
returned by `random.uniform(-noise_range, noise_range)`. -/
def apply_noise (value : ℚ) (config : DataGenerationConfig) (noiseDraw : ℚ) : ℚ :=
  if config.noise_level = 0 then
    value
  else if config.data_type = DataType.integer then
    (pyInt (value + noiseDraw) : ℚ)
  else
    value + noiseDraw

/-- `SimpleDevice._apply_drift` (lines 86-99): returns the drifted value
and the updated `drift_offset`. -/
def apply_drift (value : ℚ) (time_delta : ℚ) (config : DataGenerationConfig)
    (drift_offset : ℚ) : ℚ × ℚ :=
  if config.drift_rate = 0 then
    (value, drift_offset)
  else
    let drift := config.drift_rate * time_delta
    let off := drift_offset + drift
    if config.data_type = DataType.integer then
      ((pyInt (value + off) : ℚ), off)
    else
      (value + off, off)

/-- `SimpleDevice._clamp_value` (lines 101-106): integers are clamped to
`[int(min_value), int(max_value)]` (truncation toward zero), floats to
`[min_value, max_value]`. -/
def clamp_value (value : ℚ) (config : DataGenerationConfig) : ℚ :=
  if config.data_type = DataType.integer then
    ((pymaxI (pyInt config.min_value) (pyminI (pyInt config.max_value) (pyInt value)) : ℤ) : ℚ)
  else
    pymax config.min_value (pymin config.max_value value)

/-- Wrap a numeric result back into the Python value the pipeline
returns: `int(...)` for integer kind, a float otherwise. -/
def numVal (config : DataGenerationConfig) (v : ℚ) : PyVal :=
  if config.data_type = DataType.integer then PyVal.int (pyInt v) else PyVal.float v

/-- `SimpleDevice._generate_next_value` (lines 108-151) for one
generator; `now` is the method's own `datetime.now()` reading. -/
def generate_next_value (g : FieldGenerator) (now : ℚ) (d : Draws) :
    PyVal × FieldGenerator :=
  let config := g.config
  let time_delta := now - g.last_update
  match config.data_type with
  | DataType.integer =>
      let new_value := pyNum g.current_value + d.change
      let new_value := clamp_value new_value config
      (PyVal.int (pyInt new_value), { g with current_value := PyVal.int (pyInt new_value) })
  | DataType.float =>
      let new_value := pyNum g.current_value + d.change
      let new_value := clamp_value new_value config
      (PyVal.float new_value, { g with current_value := PyVal.float new_value })
  | DataType.boolean =>
      let flip_probability := pymin 1 (config.change_step * time_delta)
      if d.r < flip_probability then
        let g2 := { g with current_value := PyVal.bool (!pyTruthy g.current_value) }
        (PyVal.bool (pyTruthy g2.current_value), g2)
      else
        (PyVal.bool (pyTruthy g.current_value), g)
  | DataType.string =>
      let change_probability := pymin 1 (config.change_step * time_delta)
      if d.r < change_probability then
        let g2 := { g with current_value := PyVal.str d.new_string }
        (PyVal.str (pyStr g2.current_value), g2)
      else
        (PyVal.str (pyStr g.current_value), g)

/-- A produced sample (`shared/models/device_data.py` `DataPoint`). -/
structure DataPoint where
  timestamp : ℚ
  value : PyVal
deriving DecidableEq

/-- Body of `SimpleDevice.generate_data_point` (lines 153-173) for one
generator (after the membership check): `now` is the outer
`datetime.now()` reading (drift Δt, sample timestamp, new
`last_update`), `now2` the slightly later reading taken inside
`_generate_next_value` (step / flip-probability Δt). -/
def generate_data_point (g : FieldGenerator) (now now2 : ℚ) (d : Draws) :
    DataPoint × FieldGenerator :=
  let time_delta := now - g.last_update
  let r1 := generate_next_value g now2 d
  let value := r1.1
  let g1 := r1.2
  if g1.config.data_type = DataType.integer ∨ g1.config.data_type = DataType.float then
    let dr := apply_drift (pyNum value) time_delta g1.config g1.drift_offset
    let g2 := { g1 with drift_offset := dr.2 }
    let v := apply_noise dr.1 g2.config d.noise
    let v2 := clamp_value v g2.config
    ({ timestamp := now, value := numVal g2.config v2 }, { g2 with last_update := now })
  else
    ({ timestamp := now, value := value }, { g1 with last_update := now })

/-- Repeated generation calls on one field, each with its own pair of
clock readings and draws. -/
def generateMany (g : FieldGenerator) : List (ℚ × ℚ × Draws) →
    List DataPoint × FieldGenerator
  | [] => ([], g)
  | call :: rest =>
      let r := generate_data_point g call.1 call.2.1 call.2.2
      let rest2 := generateMany r.2 rest
      (r.1 :: rest2.1, rest2.2)

/-! ## `SimpleDevice` (`simple_device.py`) -/

/-- `SimpleDevice`: the `generators` dict is an insertion-ordered
association list keyed by config name. -/
structure SimpleDevice where
  device_id : String
  device_name : String
  device_type : String
  data_configs : List DataGenerationConfig
  generators : List (String × FieldGenerator)
deriving DecidableEq

/-- `SimpleDevice.__init__` + `_initialize_generators` (lines 18-45):
one generator per config, keyed by `config.name`; `rand` stands for the
per-field random initial draw of `_get_initial_value`, `now` for the
construction-time `datetime.now()`. -/
def SimpleDevice.mk' (device_id device_name device_type : String)
    (data_configs : List DataGenerationConfig) (rand : String → PyVal) (now : ℚ) :
    SimpleDevice :=
  { device_id := device_id
    device_name := device_name
    device_type := device_type
    data_configs := data_configs
    generators := data_configs.map (fun c =>
      (c.name,
       { config := c
         current_value := get_initial_value c (rand c.name)
         last_update := now
         drift_offset := 0 })) }

/-- `SimpleDevice.get_available_data_types` (lines 197-199). -/
def SimpleDevice.get_available_data_types (dev : SimpleDevice) : List String :=
  dev.generators.map Prod.fst

/-- `SimpleDevice.generate_data_point` (lines 153-173): raises
`ValueError` (modelled as `Except.error`) when the field name is not in
`generators` — before any state is touched, so the device comes back
unchanged; otherwise runs that field's generator and stores its updated
state. -/
def SimpleDevice.generate_data_point (dev : SimpleDevice) (name : String)
    (now now2 : ℚ) (d : Draws) : Except String DataPoint × SimpleDevice :=
  match dev.generators.lookup name with
  | none => (Except.error ("Data type " ++ name ++ " not found"), dev)
  | some g =>
      let r := Emu.generate_data_point g now now2 d
      (Except.ok r.1,
       { dev with
         generators := dev.generators.map (fun p => if p.1 = name then (p.1, r.2) else p) })

/-! ## `SimpleEmulator` (`simple_emulator.py`) and the REST handler -/

/-- `DeviceData` (`shared/models/device_data.py`), as stored in
`SimpleEmulator.latest_data`; the observability `metadata` map is not
modelled. -/
structure DeviceData where
  device_id : String
  timestamp : ℚ
  data_type : String
  value : PyVal
  unit : String
deriving DecidableEq

/-- `SimpleEmulator` state: `devices` and `latest_data` are
insertion-ordered dicts keyed by device id. -/
structure SimpleEmulator where
  config : MultiDeviceConfig
  devices : List (String × SimpleDevice)
  latest_data : List (String × List (String × DeviceData))
deriving DecidableEq

/-- `SimpleEmulator.__init__` + `_initialize_devices` (lines 20-51):
builds one `SimpleDevice` per definition and seeds
`latest_data[device_id] = {}`. -/
def SimpleEmulator.init (config : MultiDeviceConfig)
    (rand : String → String → PyVal) (now : ℚ) : SimpleEmulator :=
  { config := config
    devices := config.devices.map (fun dd =>
      (dd.device_id,
       SimpleDevice.mk' dd.device_id dd.device_name dd.device_type.value
         dd.data_configs (rand dd.device_id) now))
    latest_data := config.devices.map (fun dd => (dd.device_id, [])) }

/-- The loop-tick interval computed by the preamble of
`SimpleEmulator._main_emulation_loop` (lines 95-101): start from the
0.1 s default and fold `min` with `1/frequency` over every config with
positive frequency, over `devices.values()` in insertion order. -/
def min_sleep_time (devices : List SimpleDevice) : ℚ :=
  devices.foldl
    (fun acc device =>
      device.data_configs.foldl
        (fun acc data_config =>
          if 0 < data_config.frequency then pymin acc (1 / data_config.frequency) else acc)
        acc)
    (1 / 10)

/-- Tick interval of a whole emulator. -/
def SimpleEmulator.min_sleep_time (e : SimpleEmulator) : ℚ :=
  Emu.min_sleep_time (e.devices.map Prod.snd)

/-- The implied intervals `1/frequency` of the configs with positive
frequency, in traversal order (used to state what the loop preamble
computes). -/
def config_intervals : List DataGenerationConfig → List ℚ
  | [] => []
  | dc :: rest =>
      if 0 < dc.frequency then (1 / dc.frequency) :: config_intervals rest
      else config_intervals rest

/-- The implied intervals of every config of every device, in the
traversal order of `min_sleep_time`. -/
def implied_intervals : List SimpleDevice → List ℚ
  | [] => []
  | device :: rest => config_intervals device.data_configs ++ implied_intervals rest

/-- `SimpleEmulator.get_latest_data` for a device id (lines 222-230,
`device_id` given, `data_type` not): `self.latest_data.get(device_id, {})`. -/
def SimpleEmulator.get_latest_data (e : SimpleEmulator) (device_id : String) :
    List (String × DeviceData) :=
  (e.latest_data.lookup device_id).getD []

/-- An HTTP response of the REST layer: status code plus either an error
message or a field→sample map (the JSON rendering itself is not
modelled). -/
structure RestResponse where
  status : Nat
  error : Option String := none
  data : List (String × DeviceData) := []
deriving DecidableEq

/-- `RestApiServer._get_device_data` (`rest_server.py` lines 127-155):
fetches `get_latest_data(device_id)` and returns 404 when the result is
falsy (the empty dict), otherwise 200 with the per-field map. -/
def get_device_data (e : SimpleEmulator) (device_id : String) : RestResponse :=
  let device_data := e.get_latest_data device_id
  if device_data.isEmpty then
    { status := 404, error := some ("Device " ++ device_id ++ " not found") }
  else
    { status := 200, data := device_data }

/-! ## Qt client data sink (`qt_client/data_manager.py`) -/

/-- `qt_client.data_manager.DataPoint` (the client-side one). -/
structure QtDataPoint where
  value : PyVal
  timestamp : ℚ
  unit : String := ""
deriving DecidableEq

/-- The `maxlen=1000` of `DataStream.data_points`. -/
def deque_maxlen : Nat := 1000

/-- `DataStream` (lines 43-54): `data_points` is a
`deque(maxlen=1000)`, oldest first. -/
structure DataStream where
  device_id : String
  data_type : String
  data_points : List QtDataPoint := []
  last_update : Option ℚ := none
deriving DecidableEq

/-- `DataStream.add_data_point` (lines 51-54): a bounded `deque.append`
drops the oldest element when the deque is at `maxlen`. -/
def DataStream.add_data_point (s : DataStream) (p : QtDataPoint) : DataStream :=
  let pts :=
    if s.data_points.length = deque_maxlen then
      s.data_points.tail ++ [p]
    else
      s.data_points ++ [p]
  { s with data_points := pts, last_update := some p.timestamp }

/-- Append a whole list of points to a stream, in order. -/
def DataStream.addAll (s : DataStream) (ps : List QtDataPoint) : DataStream :=
  ps.foldl DataStream.add_data_point s

/-! ## Concrete fixtures used by counterexamples and witnesses -/

/-- A well-formed float field config. -/
def tempConfig : DataGenerationConfig :=
  { name := "temperature"
    data_type := DataType.float
    min_value := 0
    max_value := 10
    frequency := 1
    change_step := 1 }

/-- A config with `min_value > max_value`. -/
def badRangeConfig : DataGenerationConfig :=
  { name := "temperature"
    data_type := DataType.float
    min_value := 10
    max_value := 0
    frequency := 1
    change_step := 1 }

/-- A 100 Hz field config. -/
def fastConfig : DataGenerationConfig :=
  { name := "fast"
    data_type := DataType.float
    min_value := 0
    max_value := 1
    frequency := 100
    change_step := 1 }

/-- A device carrying the 100 Hz field. -/
def fastDevice : SimpleDevice :=
  SimpleDevice.mk' "dev-1" "Device 1" "sensor" [fastConfig] (fun _ => PyVal.float 0) 0

def devDefA : DeviceDefinition :=
  { device_id := "dev-1"
    device_name := "Device A"
    device_type := DeviceType.sensor
    data_configs := [tempConfig] }

def devDefB : DeviceDefinition :=
  { device_id := "dev-1"
    device_name := "Device B"
    device_type := DeviceType.sensor
    data_configs := [tempConfig] }

def devDefC : DeviceDefinition :=
  { device_id := "dev-2"
    device_name := "Device C"
    device_type := DeviceType.sensor
    data_configs := [tempConfig] }

/-- A fleet whose two devices share one id. -/
def dupFleet : MultiDeviceConfig :=
  { config_name := "fleet", devices := [devDefA, devDefB] }

/-! ## Generic helper lemmas -/

lemma nodup_of_length_dedup {α : Type} [DecidableEq α] {l : List α}
    (h : l.length = l.dedup.length) : l.Nodup := by
  have hsub : l.dedup.Sublist l := List.dedup_sublist l
  have heq : l.dedup = l := hsub.eq_of_length h.symm
  rw [← heq]
  exact List.nodup_dedup l

lemma foldl_min_le_init (l : List ℚ) : ∀ a : ℚ, l.foldl min a ≤ a := by
  induction l with
  | nil => intro a; exact le_refl a
  | cons x l ih =>
      intro a
      calc (x :: l).foldl min a = l.foldl min (min a x) := rfl
        _ ≤ min a x := ih (min a x)
        _ ≤ a := min_le_left a x

lemma foldl_min_le_mem (l : List ℚ) : ∀ (a q : ℚ), q ∈ l → l.foldl min a ≤ q := by
  induction l with
  | nil => intro a q hq; cases hq
  | cons x l ih =>
      intro a q hq
      rcases List.mem_cons.mp hq with h | h
      · subst h
        calc (q :: l).foldl min a = l.foldl min (min a q) := rfl
          _ ≤ min a q := foldl_min_le_init l (min a q)
          _ ≤ q := min_le_right a q
      · exact ih (min a x) q h

lemma foldl_min_eq_or_mem (l : List ℚ) : ∀ a : ℚ, l.foldl min a = a ∨ l.foldl min a ∈ l := by
  induction l with
  | nil => intro a; exact Or.inl rfl
  | cons x l ih =>
      intro a
      have : (x :: l).foldl min a = l.foldl min (min a x) := rfl
      rw [this]
      rcases ih (min a x) with h | h
      · rcases min_choice a x with hc | hc
        · exact Or.inl (h.trans hc)
        · exact Or.inr (by rw [h, hc]; exact List.mem_cons_self x l)
      · exact Or.inr (List.mem_cons_of_mem x h)

lemma foldl_pymin_min (l : List ℚ) : ∀ a : ℚ, l.foldl pymin a = l.foldl min a := by
  induction l with
  | nil => intro a; rfl
  | cons x l ih =>
      intro a
      simp only [List.foldl_cons, pymin_eq]
      exact ih (min a x)

lemma configs_foldl_eq (configs : List DataGenerationConfig) : ∀ a : ℚ,
    configs.foldl
      (fun acc dc => if 0 < dc.frequency then pymin acc (1 / dc.frequency) else acc) a
      = (config_intervals configs).foldl pymin a := by
  induction configs with
  | nil => intro a; rfl
  | cons dc l ih =>
      intro a
      by_cases h : 0 < dc.frequency
      · simp only [List.foldl_cons, config_intervals, if_pos h]
        exact ih (pymin a (1 / dc.frequency))
      · simp only [List.foldl_cons, config_intervals, if_neg h]
        exact ih a

lemma devices_foldl_eq (devices : List SimpleDevice) : ∀ a : ℚ,
    devices.foldl
      (fun acc device =>
        device.data_configs.foldl
          (fun acc data_config =>
            if 0 < data_config.frequency then pymin acc (1 / data_config.frequency) else acc)
          acc) a
      = (implied_intervals devices).foldl min a := by
  induction devices with
  | nil => intro a; rfl
  | cons device rest ih =>
      intro a
      simp only [List.foldl_cons, implied_intervals, List.foldl_append]
      rw [configs_foldl_eq device.data_configs a, foldl_pymin_min]
      exact ih _

/-! ## Claims -/

/-- C2 (the code violates the claim): pydantic passes a validator only
the PREVIOUSLY validated fields in `values`/`info.data`, never the field
currently being validated, so the guard
`'min_value' in values and 'max_value' in values` inside
`validate_range` is false on both of its runs and the `min>max` check is
dead code.  A config with `min_value = 10 > 0 = max_value` validates
successfully and reaches the generator. -/
theorem min_gt_max_accepted :
    badRangeConfig.max_value < badRangeConfig.min_value ∧
    validateDataGenerationConfig badRangeConfig = Except.ok badRangeConfig ∧
    (∀ (v mn : ℚ),
      validate_range v { min_value := none, max_value := none } = Except.ok v ∧
      validate_range v { min_value := some mn, max_value := none } = Except.ok v) :=
  ⟨by norm_num [badRangeConfig], by rfl, fun v mn => ⟨rfl, rfl⟩⟩

/-- C3 is false as stated: with a single 100 Hz field the computed tick
interval is 1/100 s — the code takes `min(0.1, 1/frequency)`, so 100 ms
is a cap, not a floor, and the interval can be far below it. -/
theorem min_sleep_time_not_floored :
    min_sleep_time [fastDevice] = 1 / 100 ∧ min_sleep_time [fastDevice] < 1 / 10 := by
  constructor
  · norm_num [min_sleep_time, fastDevice, fastConfig, SimpleDevice.mk', pymin]
  · norm_num [min_sleep_time, fastDevice, fastConfig, SimpleDevice.mk', pymin]

/-- C3 (amended): the loop tick interval equals the fold of `min` over
the implied intervals `1/frequency` (positive-frequency fields only)
starting from the 100 ms default: it is never LARGER than 100 ms, is a
lower bound of every implied interval, equals 100 ms when no field has
positive frequency, and is otherwise 100 ms or one of the implied
intervals.  The 100 ms default acts as a cap, not a floor. -/
theorem min_sleep_time_spec :
    ∀ devices : List SimpleDevice,
      min_sleep_time devices = (implied_intervals devices).foldl min (1 / 10) ∧
      min_sleep_time devices ≤ 1 / 10 ∧
      (∀ q ∈ implied_intervals devices, min_sleep_time devices ≤ q) ∧
      (implied_intervals devices = [] → min_sleep_time devices = 1 / 10) ∧
      (min_sleep_time devices = 1 / 10 ∨ min_sleep_time devices ∈ implied_intervals devices) := by
  intro devices
  have heq : min_sleep_time devices = (implied_intervals devices).foldl min (1 / 10) :=
    devices_foldl_eq devices (1 / 10)
  refine ⟨heq, ?_, ?_, ?_, ?_⟩
  · rw [heq]; exact foldl_min_le_init _ _
  · intro q hq; rw [heq]; exact foldl_min_le_mem _ _ q hq
  · intro h; rw [heq, h]; rfl
  · rw [heq]; exact foldl_min_eq_or_mem _ _

/-- Witness for `min_sleep_time_spec` at concrete inputs. -/
theorem min_sleep_time_spec_witness :
    min_sleep_time [] = 1 / 10 ∧ min_sleep_time [fastDevice] ≤ 1 / 100 :=
  ⟨(min_sleep_time_spec []).2.2.2.1 rfl,
   (min_sleep_time_spec [fastDevice]).2.2.1 (1 / 100)
     (by simp [implied_intervals, config_intervals, fastDevice, fastConfig,
           SimpleDevice.mk', (by decide : (0:ℚ) < 100)])⟩

/-- C7: a fleet whose devices share an id is rejected by
`MultiDeviceConfig.validate_devices` at load time (so no `SimpleDevice`
is ever constructed from it), and every list of devices that passes the
validator has pairwise-distinct device ids. -/
theorem validate_devices_unique_ids :
    (∀ (v w : List DeviceDefinition), validate_devices v = Except.ok w →
      (w.map (fun dd => dd.device_id)).Nodup) ∧
    validate_devices dupFleet.devices = Except.error "Device IDs must be unique" ∧
    loadMultiDeviceConfig dupFleet = Except.error "Device IDs must be unique" := by
  refine ⟨?_, by rfl, by rfl⟩
  intro v w h
  unfold validate_devices at h
  split at h
  · exact Except.noConfusion h
  · split at h
    · exact Except.noConfusion h
    · next hlen =>
        injection h with h2
        subst h2
        exact nodup_of_length_dedup (not_ne_iff.mp hlen)

/-- Witness for `validate_devices_unique_ids` on a well-formed fleet. -/
theorem validate_devices_unique_ids_witness :
    (([devDefA, devDefC].map (fun dd => dd.device_id))).Nodup :=
  validate_devices_unique_ids.1 [devDefA, devDefC] [devDefA, devDefC] (by rfl)

lemma addAll_data_points (dev dt : String) : ∀ ps : List QtDataPoint,
    (DataStream.addAll { device_id := dev, data_type := dt } ps).data_points
      = ps.drop (ps.length - deque_maxlen) := by
  intro ps
  induction ps using List.reverseRecOn with
  | nil => rfl
  | append_singleton ps p ih =>
      have hfold :
          DataStream.addAll { device_id := dev, data_type := dt } (ps ++ [p])
            = (DataStream.addAll { device_id := dev, data_type := dt } ps).add_data_point p := by
        simp [DataStream.addAll, List.foldl_append]
      rw [hfold, DataStream.add_data_point]
      simp only [ih, List.length_drop, List.length_append, List.length_singleton]
      have hm : deque_maxlen = 1000 := rfl
      by_cases h : deque_maxlen ≤ ps.length
      · rw [if_pos (by omega)]
        rw [List.tail_drop]
        rw [List.drop_append_of_le_length (by omega)]
        have hc : ps.length - deque_maxlen + 1 = ps.length + 1 - deque_maxlen := by omega
        rw [hc]
      · rw [if_neg (by omega)]
        have h1 : ps.length - deque_maxlen = 0 := by omega
        have h2 : ps.length + 1 - deque_maxlen = 0 := by omega
        rw [h1, h2]
        simp

/-- C6: the per-(device, field) stream is a ring buffer of capacity
1000: after appending `capacity + 1` points to a fresh stream, the
stream holds exactly the most recent `capacity` points in insertion
order (the oldest one was evicted) and its size is `capacity`. -/
theorem data_stream_ring_buffer :
    ∀ (dev dt : String) (ps : List QtDataPoint),
      ps.length = deque_maxlen + 1 →
      (DataStream.addAll { device_id := dev, data_type := dt } ps).data_points = ps.drop 1 ∧
      (DataStream.addAll { device_id := dev, data_type := dt } ps).data_points.length
        = deque_maxlen := by
  intro dev dt ps h
  have hd := addAll_data_points dev dt ps
  have hm : deque_maxlen = 1000 := rfl
  constructor
  · have h1 : ps.length - deque_maxlen = 1 := by omega
    rw [hd, h1]
  · rw [hd, List.length_drop, h]
    omega

/-- 1001 concrete data points. -/
def manyPoints : List QtDataPoint :=
  (List.range (deque_maxlen + 1)).map
    (fun i : ℕ => { value := PyVal.int (Int.ofNat i), timestamp := (i : ℚ) })

/-- Witness for `data_stream_ring_buffer` on 1001 concrete points. -/
theorem data_stream_ring_buffer_witness :
    (DataStream.addAll { device_id := "dev-1", data_type := "temperature" } manyPoints).data_points
      = manyPoints.drop 1 ∧
    (DataStream.addAll { device_id := "dev-1", data_type := "temperature" } manyPoints).data_points.length
      = deque_maxlen :=
  data_stream_ring_buffer "dev-1" "temperature" manyPoints
    (by rw [manyPoints, List.length_map, List.length_range])

lemma validateDataGenerationConfig_eq (c : DataGenerationConfig) :
    validateDataGenerationConfig c =
      match validate_initial_value c.initial_value
          { min_value := some c.min_value, max_value := some c.max_value } with
      | Except.error e => Except.error e
      | Except.ok _ =>
          if c.noise_level < 0 ∨ 1 < c.noise_level then
            Except.error "noise_level must be in the range 0.0 to 1.0"
          else
            Except.ok c := rfl

lemma validate_initial_value_str (mn mx : ℚ) (s : String) :
    validate_initial_value (some (PyVal.str s)) { min_value := some mn, max_value := some mx }
      = Except.error "TypeError: unsupported comparison" := rfl

lemma validate_initial_value_bool (mn mx : ℚ) (b : Bool) :
    validate_initial_value (some (PyVal.bool b)) { min_value := some mn, max_value := some mx }
      = if mn ≤ (if b then (1 : ℚ) else 0) then
          (if (if b then (1 : ℚ) else 0) ≤ mx then Except.ok (some (PyVal.bool b))
           else Except.error "initial_value must be within min_value and max_value range")
        else Except.error "initial_value must be within min_value and max_value range" := by
  unfold validate_initial_value pyChainLe pyLeNum pyNumLe
  dsimp only
  by_cases hlo : mn ≤ (if b then (1 : ℚ) else 0)
  · rw [if_pos (show mn ≤ pyNum (PyVal.bool b) from hlo)]
    dsimp only
    by_cases hhi : (if b then (1 : ℚ) else 0) ≤ mx
    · rw [if_pos (show pyNum (PyVal.bool b) ≤ mx from hhi)]
      dsimp only
      rw [if_pos hlo, if_pos hhi]
    · rw [if_neg (show ¬ pyNum (PyVal.bool b) ≤ mx from hhi)]
      dsimp only
      rw [if_pos hlo, if_neg hhi]
  · rw [if_neg (show ¬ mn ≤ pyNum (PyVal.bool b) from hlo)]
    dsimp only
    rw [if_neg hlo]

/-- C9: a String-kind field with a fixed string initial value never
loads — the initial-value range check compares the string with the
numeric `min_value`/`max_value` (a `TypeError` in Python, aborting
validation); a Boolean initial value loads exactly when
`min_value ≤ int(b) ≤ max_value` holds with `True = 1`, `False = 0`. -/
theorem initial_value_type_check :
    (∀ (c : DataGenerationConfig) (s : String),
      c.data_type = DataType.string →
      c.initial_value = some (PyVal.str s) →
      validateDataGenerationConfig c = Except.error "TypeError: unsupported comparison") ∧
    (∀ (c : DataGenerationConfig) (b : Bool),
      c.initial_value = some (PyVal.bool b) →
      0 ≤ c.noise_level → c.noise_level ≤ 1 →
      (validateDataGenerationConfig c = Except.ok c ↔
        (c.min_value ≤ (if b then (1 : ℚ) else 0) ∧
         (if b then (1 : ℚ) else 0) ≤ c.max_value))) := by
  constructor
  · intro c s _ hiv
    rw [validateDataGenerationConfig_eq, hiv, validate_initial_value_str]
  · intro c b hiv h0 h1
    have hnoise : ¬(c.noise_level < 0 ∨ 1 < c.noise_level) := by
      rintro (hx | hx)
      · exact absurd h0 (not_le.mpr hx)
      · exact absurd h1 (not_le.mpr hx)
    rw [validateDataGenerationConfig_eq, hiv, validate_initial_value_bool]
    by_cases hlo : c.min_value ≤ (if b then (1 : ℚ) else 0)
    · by_cases hhi : (if b then (1 : ℚ) else 0) ≤ c.max_value
      · rw [if_pos hlo, if_pos hhi]
        simp only [if_neg hnoise]
        simp [hlo, hhi]
      · rw [if_pos hlo, if_neg hhi]
        simp [hhi]
    · rw [if_neg hlo]
      simp [hlo]

/-- A String-kind config with a fixed string initial value. -/
def strInitConfig : DataGenerationConfig :=
  { name := "status"
    data_type := DataType.string
    min_value := 0
    max_value := 1
    frequency := 1
    change_step := 1
    initial_value := some (PyVal.str "on") }

/-- A Boolean-kind config with a fixed boolean initial value in range. -/
def boolInitConfig : DataGenerationConfig :=
  { name := "enabled"
    data_type := DataType.boolean
    min_value := 0
    max_value := 1
    frequency := 1
    change_step := 1
    initial_value := some (PyVal.bool true) }

/-- Witness for `initial_value_type_check` at concrete configs. -/
theorem initial_value_type_check_witness :
    validateDataGenerationConfig strInitConfig
      = Except.error "TypeError: unsupported comparison" ∧
    (validateDataGenerationConfig boolInitConfig = Except.ok boolInitConfig ↔
      (boolInitConfig.min_value ≤ (if true then (1 : ℚ) else 0) ∧
       (if true then (1 : ℚ) else 0) ≤ boolInitConfig.max_value)) :=
  ⟨initial_value_type_check.1 strInitConfig "on" rfl rfl,
   initial_value_type_check.2 boolInitConfig true rfl (by decide) (by decide)⟩

lemma pyInt_mono {a b : ℚ} (h : a ≤ b) : pyInt a ≤ pyInt b := by
  unfold pyInt
  by_cases ha : 0 ≤ a
  · rw [if_pos ha, if_pos (ha.trans h)]
    exact Int.floor_le_floor h
  · by_cases hb : 0 ≤ b
    · rw [if_neg ha, if_pos hb]
      calc ⌈a⌉ ≤ 0 := Int.ceil_le.mpr (by exact_mod_cast le_of_lt (not_le.mp ha))
        _ ≤ ⌊b⌋ := Int.floor_nonneg.mpr hb
    · rw [if_neg ha, if_neg hb]
      exact Int.ceil_le_ceil h

lemma pyInt_intCast (k : ℤ) : pyInt (k : ℚ) = k := by
  unfold pyInt
  split
  · exact Int.floor_intCast k
  · exact Int.ceil_intCast k

lemma generate_next_value_config (g : FieldGenerator) (now : ℚ) (d : Draws) :
    (generate_next_value g now d).2.config = g.config := by
  unfold generate_next_value
  dsimp only
  split
  · rfl
  · rfl
  · split <;> rfl
  · split <;> rfl

lemma generate_data_point_value_numeric (g : FieldGenerator) (now now2 : ℚ) (d : Draws)
    (h : g.config.data_type = DataType.integer ∨ g.config.data_type = DataType.float) :
    ∃ v : ℚ, (generate_data_point g now now2 d).1.value
      = numVal g.config (clamp_value v g.config) := by
  have hcfg := generate_next_value_config g now2 d
  unfold generate_data_point
  dsimp only
  rw [hcfg]
  rw [if_pos h]
  exact ⟨_, rfl⟩

lemma clamp_value_float_bounds (cfg : DataGenerationConfig) (v : ℚ)
    (hdt : cfg.data_type = DataType.float) (hle : cfg.min_value ≤ cfg.max_value) :
    cfg.min_value ≤ clamp_value v cfg ∧ clamp_value v cfg ≤ cfg.max_value := by
  have hni : ¬ cfg.data_type = DataType.integer := by rw [hdt]; decide
  unfold clamp_value
  rw [if_neg hni, pymax_eq, pymin_eq]
  exact ⟨le_max_left _ _, max_le hle (min_le_left _ _)⟩

lemma clamp_value_int_bounds (cfg : DataGenerationConfig) (v : ℚ)
    (hdt : cfg.data_type = DataType.integer) (hle : cfg.min_value ≤ cfg.max_value) :
    ((pyInt cfg.min_value : ℤ) : ℚ) ≤ clamp_value v cfg ∧
    clamp_value v cfg ≤ ((pyInt cfg.max_value : ℤ) : ℚ) := by
  unfold clamp_value
  rw [if_pos hdt, pymaxI_eq, pyminI_eq]
  constructor
  · exact_mod_cast le_max_left (pyInt cfg.min_value) (min (pyInt cfg.max_value) (pyInt v))
  · exact_mod_cast max_le (pyInt_mono hle) (min_le_left (pyInt cfg.max_value) (pyInt v))

lemma pyNum_numVal_clamp (cfg : DataGenerationConfig) (v : ℚ) :
    pyNum (numVal cfg (clamp_value v cfg)) = clamp_value v cfg := by
  by_cases hdt : cfg.data_type = DataType.integer
  · unfold numVal clamp_value
    rw [if_pos hdt, if_pos hdt, pyInt_intCast]
    rfl
  · unfold numVal clamp_value
    rw [if_neg hdt, if_neg hdt]
    rfl

/-- C1 (amended): every value a numeric generator produces is clamped at
the end of `generate_data_point`, so (given `min_value ≤ max_value`) a
Float field's value always lies in `[min_value, max_value]`, and an
Integer field's value always lies in `[int(min_value), int(max_value)]`
— the bounds truncated toward zero, which coincides with
`[min_value, max_value]` exactly when both bounds are whole numbers. -/
theorem numeric_value_in_range :
    ∀ (g : FieldGenerator) (now now2 : ℚ) (d : Draws),
      (g.config.data_type = DataType.float →
        g.config.min_value ≤ g.config.max_value →
        g.config.min_value ≤ pyNum (generate_data_point g now now2 d).1.value ∧
        pyNum (generate_data_point g now now2 d).1.value ≤ g.config.max_value) ∧
      (g.config.data_type = DataType.integer →
        g.config.min_value ≤ g.config.max_value →
        ((pyInt g.config.min_value : ℤ) : ℚ) ≤ pyNum (generate_data_point g now now2 d).1.value ∧
        pyNum (generate_data_point g now now2 d).1.value ≤ ((pyInt g.config.max_value : ℤ) : ℚ)) := by
  intro g now now2 d
  constructor
  · intro hdt hle
    obtain ⟨v, hv⟩ := generate_data_point_value_numeric g now now2 d (Or.inr hdt)
    rw [hv, pyNum_numVal_clamp]
    exact clamp_value_float_bounds g.config v hdt hle
  · intro hdt hle
    obtain ⟨v, hv⟩ := generate_data_point_value_numeric g now now2 d (Or.inl hdt)
    rw [hv, pyNum_numVal_clamp]
    exact clamp_value_int_bounds g.config v hdt hle

/-- A float generator over `tempConfig`, currently at 5. -/
def tempGen : FieldGenerator :=
  { config := tempConfig, current_value := PyVal.float 5, last_update := 0, drift_offset := 0 }

/-- Concrete draws for the witness. -/
def someDraws : Draws := { change := 2, r := 0, noise := 0, new_string := "" }

/-- Witness for `numeric_value_in_range` at a concrete float generator. -/
theorem numeric_value_in_range_witness :
    tempConfig.min_value ≤ pyNum (generate_data_point tempGen 1 1 someDraws).1.value ∧
    pyNum (generate_data_point tempGen 1 1 someDraws).1.value ≤ tempConfig.max_value :=
  (numeric_value_in_range tempGen 1 1 someDraws).1 rfl (by decide)

/-- An Integer field whose `min_value` is the fraction 1/2; it passes
config validation (initial value 1 lies in `[1/2, 10]`). -/
def fracIntConfig : DataGenerationConfig :=
  { name := "level"
    data_type := DataType.integer
    min_value := 1 / 2
    max_value := 10
    frequency := 1
    change_step := 1
    initial_value := some (PyVal.int 1) }

/-- The generator state right after construction from `fracIntConfig`. -/
def fracIntGen : FieldGenerator :=
  { config := fracIntConfig, current_value := PyVal.int 1, last_update := 0, drift_offset := 0 }

/-- Draws: the step draw is `-1`, inside the legal band
`[-max_change, max_change] = [-1, 1]` for `Δt = 1`. -/
def fracIntDraws : Draws := { change := -1, r := 0, noise := 0, new_string := "" }

/-- C1 is false as stated: on the Integer field with `min_value = 1/2`,
`max_value = 10` (a validated config) the clamp truncates the bounds
with `int(...)`, and one step from value 1 with draw `-1` produces the
value 0, strictly below `min_value`. -/
theorem integer_value_escapes_range :
    validateDataGenerationConfig fracIntConfig = Except.ok fracIntConfig ∧
    |fracIntDraws.change| ≤ max_change fracIntGen 1 ∧
    (generate_data_point fracIntGen 1 1 fracIntDraws).1.value = PyVal.int 0 ∧
    ¬ (fracIntConfig.min_value ≤ pyNum (generate_data_point fracIntGen 1 1 fracIntDraws).1.value) := by
  have hfl : (⌊(1 : ℚ) / 2⌋ : ℤ) = 0 := by
    rw [Int.floor_eq_iff]
    norm_num
  have hval : (generate_data_point fracIntGen 1 1 fracIntDraws).1.value = PyVal.int 0 := by
    norm_num [generate_data_point, generate_next_value, apply_drift, apply_noise,
      clamp_value, numVal, pyNum, pyInt, pymaxI, pyminI, fracIntGen, fracIntConfig,
      fracIntDraws, hfl]
  refine ⟨?_, ?_, hval, ?_⟩
  · rw [validateDataGenerationConfig_eq]
    norm_num [validate_initial_value, pyChainLe, pyLeNum, pyNumLe, pyNum, fracIntConfig]
  · norm_num [max_change, fracIntGen, fracIntConfig, fracIntDraws]
  · rw [hval]
    norm_num [fracIntConfig, pyNum]

lemma clamp_abs_le {mn mx v x : ℚ} (hmn : mn ≤ v) (hmx : v ≤ mx) :
    |max mn (min mx x) - v| ≤ |x - v| := by
  rcases le_total v x with h | h
  · have h1 : v ≤ max mn (min mx x) := le_max_of_le_right (le_min hmx h)
    have h2 : max mn (min mx x) ≤ x := max_le (hmn.trans h) (min_le_right mx x)
    rw [abs_of_nonneg (sub_nonneg.mpr h1), abs_of_nonneg (sub_nonneg.mpr h)]
    linarith
  · have h1 : max mn (min mx x) ≤ v := max_le hmn ((min_le_right mx x).trans h)
    have h2 : x ≤ max mn (min mx x) := le_max_of_le_right (le_min (h.trans hmx) le_rfl)
    rw [abs_of_nonpos (sub_nonpos.mpr h1), abs_of_nonpos (sub_nonpos.mpr h)]
    linarith

lemma clamp_of_mem {mn mx y : ℚ} (h1 : mn ≤ y) (h2 : y ≤ mx) : max mn (min mx y) = y := by
  rw [min_eq_right h2, max_eq_right h1]

lemma generate_data_point_float_trace (g : FieldGenerator) (now now2 : ℚ) (d : Draws)
    (hdt : g.config.data_type = DataType.float)
    (hnl : g.config.noise_level = 0) (hdr : g.config.drift_rate = 0) :
    (generate_data_point g now now2 d).1.value =
      PyVal.float (pymax g.config.min_value (pymin g.config.max_value
        (pymax g.config.min_value (pymin g.config.max_value
          (pyNum g.current_value + d.change))))) ∧
    (generate_data_point g now now2 d).2.current_value =
      PyVal.float (pymax g.config.min_value (pymin g.config.max_value
        (pyNum g.current_value + d.change))) := by
  simp [generate_data_point, generate_next_value, apply_drift, apply_noise,
    clamp_value, numVal, pyNum, hdt, hnl, hdr]

/-- C5: for a Float field with `min = 0`, `max = 10`, `change_step = 1`,
`noise_level = 0`, `drift_rate = 0` and 1 s between calls, one
generation call moves the value by at most 1 (the uniform step draw is
bounded by `max_change = change_step·Δt = 1`), keeps it inside
`[0, 10]`, and stores the produced value back as the current value — so
along any run of such calls consecutive samples differ by at most 1 and
never leave `[0, 10]`. -/
theorem float_step_bounded :
    ∀ (g : FieldGenerator) (now now2 : ℚ) (d : Draws),
      g.config.data_type = DataType.float →
      g.config.min_value = 0 → g.config.max_value = 10 →
      g.config.change_step = 1 → g.config.noise_level = 0 → g.config.drift_rate = 0 →
      now2 - g.last_update = 1 →
      0 ≤ pyNum g.current_value → pyNum g.current_value ≤ 10 →
      |d.change| ≤ max_change g now2 →
      |pyNum (generate_data_point g now now2 d).1.value - pyNum g.current_value| ≤ 1 ∧
      0 ≤ pyNum (generate_data_point g now now2 d).1.value ∧
      pyNum (generate_data_point g now now2 d).1.value ≤ 10 ∧
      (generate_data_point g now now2 d).2.current_value =
        PyVal.float (pyNum (generate_data_point g now now2 d).1.value) := by
  intro g now now2 d hdt hmn hmx hstep hnl hdr hdelta hcur0 hcur10 hchange
  obtain ⟨hval, hcur⟩ := generate_data_point_float_trace g now now2 d hdt hnl hdr
  rw [hmn, hmx] at hval hcur
  simp only [pymax_eq, pymin_eq] at hval hcur
  have hch1 : |d.change| ≤ 1 := by
    rw [max_change, hstep, hdelta, one_mul] at hchange
    exact hchange
  have hy0 : (0 : ℚ) ≤ max 0 (min 10 (pyNum g.current_value + d.change)) := le_max_left _ _
  have hy10 : max 0 (min 10 (pyNum g.current_value + d.change)) ≤ 10 :=
    max_le (by norm_num) (min_le_left _ _)
  have hcc : max (0 : ℚ) (min 10 (max 0 (min 10 (pyNum g.current_value + d.change))))
      = max 0 (min 10 (pyNum g.current_value + d.change)) := clamp_of_mem hy0 hy10
  rw [hval, hcc] at *
  refine ⟨?_, ?_, ?_, ?_⟩
  · show |pyNum (PyVal.float _) - pyNum g.current_value| ≤ 1
    simp only [pyNum]
    calc |max 0 (min 10 (pyNum g.current_value + d.change)) - pyNum g.current_value|
        ≤ |(pyNum g.current_value + d.change) - pyNum g.current_value| :=
          clamp_abs_le hcur0 hcur10
      _ = |d.change| := by ring_nf
      _ ≤ 1 := hch1
  · simp only [pyNum]
    exact hy0
  · simp only [pyNum]
    exact hy10
  · rw [hcur]
    simp only [pyNum]

/-- Concrete draws with a step inside the legal band for `Δt = 1`. -/
def stepDraws : Draws := { change := 1, r := 0, noise := 0, new_string := "" }

/-- Witness for `float_step_bounded` at a concrete generator. -/
theorem float_step_bounded_witness :
    |pyNum (generate_data_point tempGen 1 1 stepDraws).1.value - pyNum tempGen.current_value| ≤ 1 ∧
    0 ≤ pyNum (generate_data_point tempGen 1 1 stepDraws).1.value ∧
    pyNum (generate_data_point tempGen 1 1 stepDraws).1.value ≤ 10 ∧
    (generate_data_point tempGen 1 1 stepDraws).2.current_value =
      PyVal.float (pyNum (generate_data_point tempGen 1 1 stepDraws).1.value) :=
  float_step_bounded tempGen 1 1 stepDraws rfl rfl rfl rfl rfl rfl
    (by simp [tempGen]) (by simp only [tempGen, pyNum]; decide)
    (by simp only [tempGen, pyNum]; decide)
    (by simp [max_change, tempGen, tempConfig, stepDraws])

lemma generate_data_point_bool (g : FieldGenerator) (now now2 : ℚ) (d : Draws) (b : Bool)
    (hdt : g.config.data_type = DataType.boolean) (hcur : g.current_value = PyVal.bool b) :
    (generate_data_point g now now2 d).1.value =
      PyVal.bool (if d.r < pymin 1 (g.config.change_step * (now2 - g.last_update)) then !b else b) ∧
    (generate_data_point g now now2 d).2.current_value =
      PyVal.bool (if d.r < pymin 1 (g.config.change_step * (now2 - g.last_update)) then !b else b) ∧
    (generate_data_point g now now2 d).2.drift_offset = g.drift_offset ∧
    (generate_data_point g now now2 d).2.config = g.config := by
  by_cases hr : d.r < pymin 1 (g.config.change_step * (now2 - g.last_update))
  · simp [generate_data_point, generate_next_value, hdt, hcur, pyTruthy, hr]
  · simp [generate_data_point, generate_next_value, hdt, hcur, pyTruthy, hr]

lemma generateMany_zero_step (b : Bool) :
    ∀ (calls : List (ℚ × ℚ × Draws)) (g : FieldGenerator),
      g.config.data_type = DataType.boolean → g.config.change_step = 0 →
      g.current_value = PyVal.bool b →
      (∀ c ∈ calls, 0 ≤ c.2.2.r) →
      (∀ dp ∈ (generateMany g calls).1, dp.value = PyVal.bool b) ∧
      (generateMany g calls).2.current_value = PyVal.bool b ∧
      (generateMany g calls).2.config = g.config := by
  intro calls
  induction calls with
  | nil =>
      intro g _ _ hcur _
      exact ⟨fun dp hdp => absurd hdp (List.not_mem_nil dp), hcur, rfl⟩
  | cons call rest ih =>
      intro g hdt hstep hcur hr
      have hr0 : 0 ≤ call.2.2.r := hr call (List.mem_cons_self call rest)
      have hpm : pymin (1 : ℚ) 0 = 0 := by
        unfold pymin
        rw [if_pos (by norm_num)]
      have hflip : ¬ call.2.2.r <
          pymin 1 (g.config.change_step * (call.2.1 - g.last_update)) := by
        rw [hstep, zero_mul, hpm]
        exact not_lt.mpr hr0
      obtain ⟨hv, hc, _, hcf⟩ :=
        generate_data_point_bool g call.1 call.2.1 call.2.2 b hdt hcur
      rw [if_neg hflip] at hv hc
      obtain ⟨ih1, ih2, ih3⟩ :=
        ih (generate_data_point g call.1 call.2.1 call.2.2).2
          (by rw [hcf]; exact hdt) (by rw [hcf]; exact hstep) hc
          (fun c hcmem => hr c (List.mem_cons_of_mem call hcmem))
      refine ⟨?_, ?_, ?_⟩
      · intro dp hdp
        simp only [generateMany] at hdp
        rcases List.mem_cons.mp hdp with h | h
        · rw [h]
          exact hv
        · exact ih1 dp h
      · simp only [generateMany]
        exact ih2
      · simp only [generateMany]
        rw [ih3, hcf]

/-- C4: on a Boolean field one generation call inverts the value exactly
when the uniform draw `r` is below `min(1, change_step·Δt)` (with `Δt`
the elapsed time seen inside `_generate_next_value`); the drift
accumulator is untouched (the drift/noise/clamp block only runs for
numeric kinds); with `change_step = 0` the value never changes across
any number of calls (since `r ≥ 0`); and when `change_step·Δt ≥ 1` the
flip probability is 1 and every call with `r < 1` flips. -/
theorem boolean_flip_semantics :
    ∀ (g : FieldGenerator) (now now2 : ℚ) (d : Draws) (b : Bool)
      (calls : List (ℚ × ℚ × Draws)),
      g.config.data_type = DataType.boolean → g.current_value = PyVal.bool b →
      ((generate_data_point g now now2 d).1.value =
        PyVal.bool
          (if d.r < min 1 (g.config.change_step * (now2 - g.last_update)) then !b else b)) ∧
      ((generate_data_point g now now2 d).2.drift_offset = g.drift_offset) ∧
      (g.config.change_step = 0 → (∀ c ∈ calls, 0 ≤ c.2.2.r) →
        ∀ dp ∈ (generateMany g calls).1, dp.value = PyVal.bool b) ∧
      (1 ≤ g.config.change_step * (now2 - g.last_update) → d.r < 1 →
        (generate_data_point g now now2 d).1.value = PyVal.bool (!b)) := by
  intro g now now2 d b calls hdt hcur
  obtain ⟨hv, _, hdo, _⟩ := generate_data_point_bool g now now2 d b hdt hcur
  refine ⟨?_, hdo, ?_, ?_⟩
  · rw [pymin_eq] at hv
    exact hv
  · intro hstep hr
    exact (generateMany_zero_step b calls g hdt hstep hcur hr).1
  · intro h1 hr1
    have hone : pymin 1 (g.config.change_step * (now2 - g.last_update)) = 1 := by
      unfold pymin
      rw [if_neg (not_lt.mpr h1)]
    rw [hv, hone, if_pos hr1]

/-- A Boolean field with `change_step = 0`. -/
def boolZeroConfig : DataGenerationConfig :=
  { name := "flag"
    data_type := DataType.boolean
    min_value := 0
    max_value := 1
    frequency := 1
    change_step := 0 }

/-- Generator over `boolZeroConfig`, currently `True`. -/
def boolZeroGen : FieldGenerator :=
  { config := boolZeroConfig, current_value := PyVal.bool true, last_update := 0,
    drift_offset := 0 }

/-- Generator over `boolInitConfig` (`change_step = 1`), currently `True`. -/
def boolOneGen : FieldGenerator :=
  { config := boolInitConfig, current_value := PyVal.bool true, last_update := 0,
    drift_offset := 0 }

/-- Witness for `boolean_flip_semantics`: a zero-step field never flips
over a run of calls, and a step·Δt ≥ 1 call with `r = 0` flips. -/
theorem boolean_flip_semantics_witness :
    (∀ dp ∈ (generateMany boolZeroGen [(1, 1, someDraws)]).1, dp.value = PyVal.bool true) ∧
    (generate_data_point boolOneGen 1 1 someDraws).1.value = PyVal.bool (!true) :=
  ⟨(boolean_flip_semantics boolZeroGen 1 1 someDraws true [(1, 1, someDraws)] rfl rfl).2.2.1
      rfl
      (by intro c hc
          simp only [List.mem_singleton] at hc
          rw [hc]
          decide),
   (boolean_flip_semantics boolOneGen 1 1 someDraws true [] rfl rfl).2.2.2
      (by simp [boolOneGen, boolInitConfig]) (by decide)⟩

lemma lookup_eq_none_iff (l : List (String × FieldGenerator)) (name : String) :
    l.lookup name = none ↔ name ∉ l.map Prod.fst := by
  induction l with
  | nil => simp [List.lookup]
  | cons p t ih =>
      obtain ⟨k, g⟩ := p
      by_cases h : name = k
      · subst h
        simp [List.lookup]
      · have hbeq : (name == k) = false := by simp [h]
        simp only [List.lookup, hbeq, List.map_cons, List.mem_cons]
        rw [ih]
        simp [h]

lemma generate_data_point_fst_timestamp (g : FieldGenerator) (now now2 : ℚ) (d : Draws) :
    (generate_data_point g now now2 d).1.timestamp = now := by
  unfold generate_data_point
  dsimp only
  split
  · rfl
  · rfl

/-- C8: asking a device to generate a field it does not have fails with
the typed not-found error before any state is touched (the device comes
back unchanged); asking for a known field runs exactly that field's
generator and returns its fresh sample, stamped with the call's `now`. -/
theorem generate_field_not_found :
    ∀ (dev : SimpleDevice) (name : String) (now now2 : ℚ) (d : Draws),
      (name ∉ dev.get_available_data_types →
        dev.generate_data_point name now now2 d =
          (Except.error ("Data type " ++ name ++ " not found"), dev)) ∧
      (name ∈ dev.get_available_data_types →
        ∃ g, dev.generators.lookup name = some g ∧
          (dev.generate_data_point name now now2 d).1 =
            Except.ok (Emu.generate_data_point g now now2 d).1 ∧
          (Emu.generate_data_point g now now2 d).1.timestamp = now) := by
  intro dev name now now2 d
  constructor
  · intro hnm
    have hln : dev.generators.lookup name = none :=
      (lookup_eq_none_iff dev.generators name).mpr hnm
    unfold SimpleDevice.generate_data_point
    rw [hln]
  · intro hnm
    have hln : dev.generators.lookup name ≠ none := fun hx =>
      ((lookup_eq_none_iff dev.generators name).mp hx) hnm
    obtain ⟨g, hg⟩ := Option.ne_none_iff_exists'.mp hln
    refine ⟨g, hg, ?_, generate_data_point_fst_timestamp g now now2 d⟩
    unfold SimpleDevice.generate_data_point
    rw [hg]

/-- A device with the single field `temperature`. -/
def sampleDevice : SimpleDevice :=
  SimpleDevice.mk' "dev-1" "Device A" "sensor" [tempConfig] (fun _ => PyVal.float 5) 0

/-- Witness for `generate_field_not_found` at a concrete device. -/
theorem generate_field_not_found_witness :
    sampleDevice.generate_data_point "humidity" 1 1 someDraws =
      (Except.error ("Data type " ++ "humidity" ++ " not found"), sampleDevice) ∧
    ∃ g, sampleDevice.generators.lookup "temperature" = some g ∧
      (sampleDevice.generate_data_point "temperature" 1 1 someDraws).1 =
        Except.ok (Emu.generate_data_point g 1 1 someDraws).1 ∧
      (Emu.generate_data_point g 1 1 someDraws).1.timestamp = 1 :=
  ⟨(generate_field_not_found sampleDevice "humidity" 1 1 someDraws).1 (by decide),
   (generate_field_not_found sampleDevice "temperature" 1 1 someDraws).2 (by decide)⟩

lemma init_latest_lookup (l : List DeviceDefinition) (id : String) :
    ((l.map (fun dd => (dd.device_id, ([] : List (String × DeviceData))))).lookup id).getD []
      = [] := by
  induction l with
  | nil => rfl
  | cons dd t ih =>
      by_cases h : id = dd.device_id
      · simp [List.lookup, h]
      · have hbeq : (id == dd.device_id) = false := by simp [h]
        simp only [List.map_cons, List.lookup, hbeq]
        exact ih

/-- C10: on a freshly initialized emulator `get_latest_data(device_id)`
is the empty map for EVERY id — a fleet device that has produced nothing
yet and an unknown id alike — and the `/data/{id}` handler then answers
404; more generally, whenever two emulators both report an empty map for
an id, the handler's responses are identical, so the two cases are
indistinguishable at the interface. -/
theorem empty_device_data_404 :
    (∀ (cfg : MultiDeviceConfig) (rand : String → String → PyVal) (now : ℚ) (id : String),
      (SimpleEmulator.init cfg rand now).get_latest_data id = [] ∧
      get_device_data (SimpleEmulator.init cfg rand now) id =
        { status := 404, error := some ("Device " ++ id ++ " not found"), data := [] }) ∧
    (∀ (e1 e2 : SimpleEmulator) (id : String),
      e1.get_latest_data id = [] → e2.get_latest_data id = [] →
      get_device_data e1 id = get_device_data e2 id ∧
      (get_device_data e1 id).status = 404) := by
  constructor
  · intro cfg rand now id
    have h : (SimpleEmulator.init cfg rand now).get_latest_data id = [] := by
      unfold SimpleEmulator.get_latest_data SimpleEmulator.init
      dsimp only
      exact init_latest_lookup cfg.devices id
    refine ⟨h, ?_⟩
    unfold get_device_data
    rw [h]
    rfl
  · intro e1 e2 id h1 h2
    constructor
    · unfold get_device_data
      rw [h1, h2]
    · unfold get_device_data
      rw [h1]
      rfl

/-- A one-device fleet containing `dev-1`. -/
def fleetA : MultiDeviceConfig := { config_name := "fleet-a", devices := [devDefA] }

/-- A one-device fleet NOT containing `dev-1`. -/
def fleetB : MultiDeviceConfig := { config_name := "fleet-b", devices := [devDefC] }

/-- Fresh emulator over `fleetA`: `dev-1` exists but has no samples. -/
def emuA : SimpleEmulator := SimpleEmulator.init fleetA (fun _ _ => PyVal.float 5) 0

/-- Fresh emulator over `fleetB`: `dev-1` is unknown. -/
def emuB : SimpleEmulator := SimpleEmulator.init fleetB (fun _ _ => PyVal.float 5) 0

/-- Witness for `empty_device_data_404`: existing-but-silent device and
unknown device produce the same 404. -/
theorem empty_device_data_404_witness :
    get_device_data emuA "dev-1" = get_device_data emuB "dev-1" ∧
    (get_device_data emuA "dev-1").status = 404 :=
  empty_device_data_404.2 emuA emuB "dev-1" (by rfl) (by rfl)

end Emu
